import Mathlib

/-!
Shallow embedding of the Flight-Deal-Finder repository
(`main.py`, `flight_data.py`, `flight_search.py`, `data_manager.py`,
`notification_manager.py`) and proofs about its behaviour.

Python's dynamically-typed values that matter here (a field that can hold a
float, an int, a string, or `None`) are modelled by the inductive `Val`.
Prices parsed with `float(...)` are modelled as rationals; the selection and
comparison logic only uses ordering, which `ℚ` mirrors.
-/

/-- A dynamically-typed Python value, as used for `FlightData` fields:
`float` prices, `int` stop counts, strings, and `None`. -/
inductive Val
  | str (s : String)
  | num (q : ℚ)
  | int (n : Int)
  | null
  deriving DecidableEq, Repr

/-- A flight segment from the Amadeus payload: the fields of
`segments[i]["departure"]` / `["arrival"]` that `flight_data.py` reads. -/
structure Segment where
  departure_iataCode : String
  departure_at : String
  arrival_iataCode : String
  deriving DecidableEq, Repr

/-- One itinerary (outbound or return leg) of an Amadeus offer. -/
structure Itinerary where
  segments : List Segment
  deriving DecidableEq, Repr

/-- A raw flight offer: the parts of `flight_json` that
`FlightData.from_amadeus_data` reads. `grandTotal` models
`float(flight_json["price"]["grandTotal"])`. -/
structure Offer where
  itineraries : List Itinerary
  grandTotal : ℚ
  deriving DecidableEq, Repr

/-- The JSON body returned by the flight-offer search; `data` models the
offer list under the `"data"` key (absent key collapses to `[]`, which is
falsy in Python exactly like a missing key's `None`). -/
structure AmadeusResponse where
  data : List Offer
  deriving DecidableEq, Repr

/-- `FlightData` from `flight_data.py`: price, airports, dates and stops.
Fields are `Val` because the sentinel path stores the string `"N/A"` in
every field while the normal path stores floats/ints/strings. -/
structure FlightData where
  price : Val
  origin_airport : Val
  destination_airport : Val
  out_date : Val
  return_date : Val
  stops : Val
  deriving DecidableEq, Repr

/-- Python's `s.split("T")[0]`: the prefix of `s` before the first `'T'`
(the whole string when no `'T'` occurs), written over the character list
so it evaluates by reduction. -/
def dateOf (s : String) : String := String.mk (s.data.takeWhile fun c => c != 'T')

/-- Out-of-range default used to totalise Python's list indexing; the
theorems below only speak about in-range accesses, where Python and this
model agree. -/
def defaultSegment : Segment := ⟨"", "", ""⟩

def defaultItinerary : Itinerary := ⟨[]⟩

/-- `FlightData.from_amadeus_data` from `flight_data.py`: extracts stops,
airports, dates and the grand total from one raw offer. -/
def from_amadeus_data (flight_json : Offer) : FlightData :=
  let outSegs := (flight_json.itineraries.getD 0 defaultItinerary).segments
  let nr_stops := outSegs.length - 1
  let origin := (outSegs.getD 0 defaultSegment).departure_iataCode
  let destination := (outSegs.getD nr_stops defaultSegment).arrival_iataCode
  let out_date := dateOf (outSegs.getD 0 defaultSegment).departure_at
  let return_date :=
    dateOf (((flight_json.itineraries.getD 1 defaultItinerary).segments).getD 0
      defaultSegment).departure_at
  { price := Val.num flight_json.grandTotal
    origin_airport := Val.str origin
    destination_airport := Val.str destination
    out_date := Val.str out_date
    return_date := Val.str return_date
    stops := Val.int (nr_stops : Int) }

/-- The sentinel `FlightData` built in `find_cheapest_flight` when no flight
data is available: every field holds the string `"N/A"`. -/
def naFlightData : FlightData :=
  { price := Val.str "N/A"
    origin_airport := Val.str "N/A"
    destination_airport := Val.str "N/A"
    out_date := Val.str "N/A"
    return_date := Val.str "N/A"
    stops := Val.str "N/A" }

/-- Python `<` on the values compared inside `find_cheapest_flight`; there
both sides are always floats (`Val.num`), any other combination would raise
`TypeError` in Python and is never reached by the loop. -/
def valLt : Val → Val → Bool
  | Val.num a, Val.num b => decide (a < b)
  | _, _ => false

/-- The `for flight_json in data["data"]` loop of `find_cheapest_flight`:
keeps the running cheapest, replacing it only on strictly smaller price. -/
def cheapLoop (cheapest : FlightData) : List Offer → FlightData
  | [] => cheapest
  | flight_json :: rest =>
    let current := from_amadeus_data flight_json
    cheapLoop (if valLt current.price cheapest.price then current else cheapest) rest

/-- `find_cheapest_flight` from `flight_data.py`. `Option.none` models the
Python argument `None`; `data = []` models a missing or empty `"data"` key
(both falsy under `not data.get("data")`). -/
def find_cheapest_flight : Option AmadeusResponse → FlightData
  | Option.none => naFlightData
  | some resp =>
    match resp.data with
    | [] => naFlightData
    | o :: rest => cheapLoop (from_amadeus_data o) (o :: rest)

/-- Reference loop over raw offers mirroring `cheapLoop` on prices only. -/
def pickLoop (cheapest : Offer) : List Offer → Offer
  | [] => cheapest
  | fj :: rest =>
    pickLoop (if fj.grandTotal < cheapest.grandTotal then fj else cheapest) rest

/-- Minimum of the seed's price and the prices in the list. -/
def minPrice (o : Offer) (l : List Offer) : ℚ :=
  l.foldl (fun a x => min a x.grandTotal) o.grandTotal

/-- An offer is well formed when the accesses `from_amadeus_data` performs
are in range: an outbound itinerary with at least one segment and a return
itinerary with at least one segment (Python raises `IndexError` otherwise). -/
def wfOffer (o : Offer) : Prop :=
  2 ≤ o.itineraries.length ∧
  (o.itineraries.getD 0 defaultItinerary).segments ≠ [] ∧
  (o.itineraries.getD 1 defaultItinerary).segments ≠ []

instance (o : Offer) : Decidable (wfOffer o) := by
  unfold wfOffer; infer_instance

/-! ## The workflow of `main.py` -/

/-- A destination row from the prices sheet, as read by
`DataManager.get_destination_data` and used by `main`. -/
structure Destination where
  id : Nat
  city : String
  iataCode : String
  lowestPrice : ℚ
  deriving DecidableEq, Repr

/-- A customer row from the users sheet. -/
structure Customer where
  email : String
  firstName : String
  deriving DecidableEq, Repr

/-- Observable side effects of one run of `main`: IATA resolutions,
sheet row updates (`PUT`), flight searches, customer-list fetches and
per-recipient email sends. -/
inductive Event
  | resolve (city : String)
  | sheetWrite (id : Nat) (iataCode : String)
  | search (origin dest : String)
  | fetchCustomers
  | email (addr : String) (msg : String)
  deriving DecidableEq, Repr

/-- Python exceptions that `main` can let escape. -/
inductive PyError
  | indexError
  | attributeError
  | typeError
  deriving DecidableEq, Repr

/-- The environment a run of `main` interacts with: the sheet rows, what
`FlightSearch.get_destination_code` returns per city, what
`FlightSearch.check_flights` returns per destination IATA code (`none` for
a failed search), and the users sheet. -/
structure WorkflowEnv where
  destinations : List Destination
  resolve : String → String
  search : String → Option AmadeusResponse
  customers : List Customer

/-- The per-destination loop of `main`. For each destination it calls
`check_flights` and evaluates `if flight and flight.price < ...`:
`None` is falsy, so the `else` branch just logs; a decoded JSON response is
a non-empty `dict`, hence truthy, and `flight.price` on a `dict` raises
`AttributeError` (`main` never converts the raw response into `FlightData`:
it does not call `find_cheapest_flight`). Returns the emitted events and
the escaping exception, if any. -/
def processDestinations (search : String → Option AmadeusResponse) :
    List Destination → List Event × Option PyError
  | [] => ([], Option.none)
  | d :: ds =>
    match search d.iataCode with
    | Option.none =>
      let (es, e) := processDestinations search ds
      (Event.search "LON" d.iataCode :: es, e)
    | some _ => ([Event.search "LON" d.iataCode], some PyError.attributeError)

/-- Body of `main` on the fetched sheet rows: checks
`sheet_data[0]["iataCode"]` (raising `IndexError` on an empty sheet),
backfills IATA codes when that first code is empty (resolving every row's
city, then writing every row back via
`DataManager.update_destination_codes`), then runs the per-destination
search loop on the (possibly updated) rows. -/
def runMainAux (resolve : String → String)
    (search : String → Option AmadeusResponse) :
    List Destination → List Event × Option PyError
  | [] => ([], some PyError.indexError)
  | d0 :: rest =>
    if d0.iataCode = "" then
      let upd := (d0 :: rest).map fun r => { r with iataCode := resolve r.city }
      let run := processDestinations search upd
      ((d0 :: rest).map (fun r => Event.resolve r.city) ++
        upd.map (fun r => Event.sheetWrite r.id r.iataCode) ++ run.1, run.2)
    else
      processDestinations search (d0 :: rest)

/-- `main` from `main.py`, run against an environment. Returns the event
trace up to where the run ends, and the escaping exception, if any. -/
def runMain (env : WorkflowEnv) : List Event × Option PyError :=
  runMainAux env.resolve env.search env.destinations

/-- The sheet updates (`PUT` calls of `update_destination_codes`) in a
trace, as (row id, written IATA code) pairs, in order. -/
def writesOf (trace : List Event) : List (Nat × String) :=
  trace.filterMap fun e =>
    match e with
    | Event.sheetWrite i c => some (i, c)
    | _ => Option.none

/-- The IATA resolutions (`get_destination_code` calls) in a trace. -/
def resolvesOf (trace : List Event) : List String :=
  trace.filterMap fun e =>
    match e with
    | Event.resolve c => some c
    | _ => Option.none

/-- The notification-path events (customer-list fetches and email sends)
in a trace. -/
def notificationEventsOf (trace : List Event) : List Event :=
  trace.filter fun e =>
    match e with
    | Event.fetchCustomers => true
    | Event.email _ _ => true
    | _ => false

/-! ## Notification dispatch (`notification_manager.py`) -/

/-- SMTP-level actions of `EmailService.send_email`, in order. -/
inductive MailEvent
  | sessionOpen (host : String)
  | starttls
  | login (user : String)
  | sendmail (from_addr to_addrs msg : String)
  | sessionClose
  deriving DecidableEq, Repr

/-- The SMTP configuration of `EmailService`. -/
structure EmailService where
  smtp_address : String
  email : String
  password : String
  deriving DecidableEq, Repr

/-- `EmailService.send_email`: opens its own SMTP session (`with
smtplib.SMTP(...)`), does STARTTLS and login, sends one message to one
recipient, and closes the session when the `with` block exits. -/
def send_email (svc : EmailService) (to_addrs subject body : String) :
    List MailEvent :=
  [MailEvent.sessionOpen svc.smtp_address, MailEvent.starttls,
   MailEvent.login svc.email,
   MailEvent.sendmail svc.email to_addrs ("Subject:" ++ subject ++ "\n\n" ++ body),
   MailEvent.sessionClose]

/-- `NotificationManager.send_emails`: calls `send_email` once per address
in the list, in order. -/
def send_emails (svc : EmailService) (email_list : List String)
    (subject body : String) : List MailEvent :=
  email_list.flatMap fun e => send_email svc e subject body

/-- Number of SMTP transport sessions opened in a mail trace. -/
def sessionOpens (trace : List MailEvent) : Nat :=
  (trace.filter fun e =>
    match e with
    | MailEvent.sessionOpen _ => true
    | _ => false).length

/-- The recipients of the messages sent in a mail trace, in order. -/
def sendTargets (trace : List MailEvent) : List String :=
  trace.filterMap fun e =>
    match e with
    | MailEvent.sendmail _ toA _ => some toA
    | _ => Option.none

/-! ## Soft-fail contracts (`flight_search.py`, `notification_manager.py`) -/

/-- Outcome of an HTTP request as seen by the `try` blocks: either a decoded
body, or a `requests.exceptions.RequestException` (covers network failures
and the non-2xx statuses surfaced by `raise_for_status`). -/
inductive Transport (α : Type)
  | ok (a : α)
  | requestException

/-- One entry of the location-lookup response's `"data"` list;
`iataCode = none` models a row missing the `"iataCode"` key (Python
`KeyError` on access). -/
structure IataEntry where
  iataCode : Option String
  deriving DecidableEq, Repr

/-- The location-lookup response body: its `"data"` list. -/
structure IataResponse where
  data : List IataEntry
  deriving DecidableEq, Repr

/-- `FlightSearch.check_flights` result handling: returns the decoded body
on success and `None` on any `RequestException` (logged, not re-raised).
`Except.error` would model an escaping exception; this never occurs. -/
def check_flights (r : Transport AmadeusResponse) :
    Except PyError (Option AmadeusResponse) :=
  match r with
  | Transport.ok a => Except.ok (some a)
  | Transport.requestException => Except.ok Option.none

/-- `FlightSearch.get_destination_code` result handling: first entry's IATA
code on success; `"N/A"` when the `"data"` list is empty, on any
`RequestException`, or on a `KeyError` while reading the code. -/
def get_destination_code (r : Transport IataResponse) : Except PyError String :=
  match r with
  | Transport.requestException => Except.ok "N/A"
  | Transport.ok resp =>
    match resp.data with
    | [] => Except.ok "N/A"
    | e :: _ =>
      match e.iataCode with
      | some c => Except.ok c
      | Option.none => Except.ok "N/A"

/-- Failures a notification send can hit: the specific transport exception
(`smtplib.SMTPException` / `TwilioRestException`) or any other `Exception`. -/
inductive SendFailure
  | transportException
  | otherException
  deriving DecidableEq, Repr

/-- `EmailService.send_email` error handling: both `except` arms log and
fall through, so the call returns normally whatever happens. -/
def send_email_outcome (f : Option SendFailure) : Except PyError Unit :=
  match f with
  | Option.none => Except.ok ()
  | some SendFailure.transportException => Except.ok ()
  | some SendFailure.otherException => Except.ok ()

/-- `SMSService.send_sms` error handling: catches `TwilioRestException` and
`Exception`, logs, returns normally. -/
def send_sms_outcome (f : Option SendFailure) : Except PyError Unit :=
  match f with
  | Option.none => Except.ok ()
  | some SendFailure.transportException => Except.ok ()
  | some SendFailure.otherException => Except.ok ()

/-- `WhatsAppService.send_whatsapp` error handling: same shape as SMS. -/
def send_whatsapp_outcome (f : Option SendFailure) : Except PyError Unit :=
  match f with
  | Option.none => Except.ok ()
  | some SendFailure.transportException => Except.ok ()
  | some SendFailure.otherException => Except.ok ()

/-! ## Concrete test inputs -/

/-- The destination row of the spec's end-to-end scenario. -/
def parisDest : Destination := ⟨1, "Paris", "PAR", 60⟩

/-- A single round-trip offer priced 45 with a 1-segment outbound leg
(0 stops) and a 1-segment return leg. -/
def offer45 : Offer :=
  ⟨[⟨[⟨"LON", "2025-03-01T10:00:00", "PAR"⟩]⟩,
    ⟨[⟨"PAR", "2025-03-08T12:00:00", "LON"⟩]⟩], 45⟩

/-- A search response holding exactly `offer45`. -/
def resp45 : AmadeusResponse := ⟨[offer45]⟩

/-- Environment of the end-to-end scenario: one Paris row with recorded
lowest price 60, a search that returns `resp45` for `"PAR"`, and one
customer on the users sheet. -/
def envScenario : WorkflowEnv :=
  ⟨[parisDest], fun _ => "N/A",
   fun code => if code = "PAR" then some resp45 else Option.none,
   [⟨"ann@example.com", "Ann"⟩]⟩

/-- Same destination but the search fails / finds nothing (`None`). -/
def envNoFlight : WorkflowEnv :=
  ⟨[parisDest], fun _ => "N/A", fun _ => Option.none,
   [⟨"ann@example.com", "Ann"⟩]⟩

/-- The end-to-end scenario again with two customers on the users sheet. -/
def envScenarioTwoCustomers : WorkflowEnv :=
  ⟨[parisDest], fun _ => "N/A",
   fun code => if code = "PAR" then some resp45 else Option.none,
   [⟨"ann@example.com", "Ann"⟩, ⟨"bob@example.com", "Bob"⟩]⟩

/-- Backfill scenario: first row's IATA code empty, second row already
coded (`"BER"`). -/
def envBackfill : WorkflowEnv :=
  ⟨[⟨1, "Paris", "", 60⟩, ⟨2, "Berlin", "BER", 99⟩],
   fun c => if c = "Paris" then "PAR" else "XXX",
   fun _ => Option.none, []⟩

/-- Environment whose destination fetch returns an empty list. -/
def envEmptySheet : WorkflowEnv :=
  ⟨[], fun _ => "N/A", fun _ => Option.none, []⟩

/-- A well-formed offer used as a building block: one outbound and one
return segment, given price. -/
def mkOffer (q : ℚ) (tag : String) : Offer :=
  ⟨[⟨[⟨"LON", "2025-03-01T10:00:00", tag⟩]⟩,
    ⟨[⟨tag, "2025-03-08T12:00:00", "LON"⟩]⟩], q⟩

/-- Three offers with a price tie at the minimum (7) on the second and
third entries. -/
def offersTie : List Offer := [mkOffer 10 "AAA", mkOffer 7 "BBB", mkOffer 7 "CCC"]

/-- A two-segment outbound itinerary offer for the field-extraction check. -/
def offerTwoSeg : Offer :=
  ⟨[⟨[⟨"LON", "2025-03-01T10:00:00", "AMS"⟩,
      ⟨"AMS", "2025-03-01T14:00:00", "PAR"⟩]⟩,
    ⟨[⟨"PAR", "2025-03-08T12:00:00", "LON"⟩]⟩], 55⟩

/-! ## Helper lemmas -/

/-- The search loop performs no sheet writes. -/
lemma writesOf_processDestinations (search : String → Option AmadeusResponse) :
    ∀ ds : List Destination, writesOf (processDestinations search ds).1 = [] := by
  intro ds
  induction ds with
  | nil => rfl
  | cons d ds ih =>
    unfold processDestinations
    cases h : search d.iataCode with
    | none => simpa [writesOf, List.filterMap_cons] using ih
    | some r => simp [writesOf, List.filterMap_cons]

/-- The search loop performs no IATA resolutions. -/
lemma resolvesOf_processDestinations (search : String → Option AmadeusResponse) :
    ∀ ds : List Destination, resolvesOf (processDestinations search ds).1 = [] := by
  intro ds
  induction ds with
  | nil => rfl
  | cons d ds ih =>
    unfold processDestinations
    cases h : search d.iataCode with
    | none => simpa [resolvesOf, List.filterMap_cons] using ih
    | some r => simp [resolvesOf, List.filterMap_cons]

/-- The price field `from_amadeus_data` extracts is the grand total. -/
lemma from_amadeus_data_price (o : Offer) :
    (from_amadeus_data o).price = Val.num o.grandTotal := rfl

/-- `cheapLoop` seeded with an extracted offer tracks `pickLoop` on the raw
offers: the comparison only looks at extracted prices. -/
lemma cheapLoop_fad (l : List Offer) :
    ∀ o : Offer, cheapLoop (from_amadeus_data o) l = from_amadeus_data (pickLoop o l) := by
  induction l with
  | nil => intro o; rfl
  | cons x xs ih =>
    intro o
    show cheapLoop
        (if valLt (from_amadeus_data x).price (from_amadeus_data o).price
          then from_amadeus_data x else from_amadeus_data o) xs =
      from_amadeus_data (pickLoop (if x.grandTotal < o.grandTotal then x else o) xs)
    have hval : valLt (from_amadeus_data x).price (from_amadeus_data o).price =
        decide (x.grandTotal < o.grandTotal) := rfl
    rw [hval]
    by_cases h : x.grandTotal < o.grandTotal
    · simp [h, ih]
    · simp [h, ih]

lemma minPrice_nil (o : Offer) : minPrice o [] = o.grandTotal := rfl

lemma minPrice_cons (o x : Offer) (xs : List Offer) :
    minPrice o (x :: xs) = minPrice (if x.grandTotal < o.grandTotal then x else o) xs := by
  unfold minPrice
  show List.foldl _ (min o.grandTotal x.grandTotal) xs = _
  congr 1
  by_cases h : x.grandTotal < o.grandTotal
  · rw [if_pos h]; exact min_eq_right (le_of_lt h)
  · rw [if_neg h]; exact min_eq_left (le_of_not_lt h)

lemma minPrice_le_seed (l : List Offer) :
    ∀ o : Offer, minPrice o l ≤ o.grandTotal := by
  induction l with
  | nil => intro o; exact le_refl _
  | cons x xs ih =>
    intro o
    rw [minPrice_cons]
    by_cases h : x.grandTotal < o.grandTotal
    · rw [if_pos h]; exact le_trans (ih x) (le_of_lt h)
    · rw [if_neg h]; exact ih o

lemma minPrice_le_mem (l : List Offer) :
    ∀ (o x : Offer), x ∈ l → minPrice o l ≤ x.grandTotal := by
  induction l with
  | nil => intro o x hx; cases hx
  | cons y ys ih =>
    intro o x hx
    rw [minPrice_cons]
    rcases List.mem_cons.mp hx with h | h
    · subst h
      by_cases hyo : x.grandTotal < o.grandTotal
      · rw [if_pos hyo]; exact minPrice_le_seed ys x
      · rw [if_neg hyo]; exact le_trans (minPrice_le_seed ys o) (le_of_not_lt hyo)
    · exact ih _ x h

/-- The running strict-less-than minimum scan returns exactly the
earliest-listed element whose price equals the minimum. -/
lemma pickLoop_find (l : List Offer) :
    ∀ o : Offer,
      ∃ w, (o :: l).find? (fun x => decide (x.grandTotal = minPrice o l)) = some w ∧
        pickLoop o l = w := by
  induction l with
  | nil =>
    intro o
    refine ⟨o, ?_, rfl⟩
    simp [minPrice_nil, List.find?]
  | cons x xs ih =>
    intro o
    obtain ⟨w, hfind, hpick⟩ := ih (if x.grandTotal < o.grandTotal then x else o)
    have hmp : minPrice o (x :: xs) =
        minPrice (if x.grandTotal < o.grandTotal then x else o) xs := minPrice_cons o x xs
    refine ⟨w, ?_, ?_⟩
    · rw [hmp]
      by_cases hxo : x.grandTotal < o.grandTotal
      · rw [if_pos hxo] at hfind ⊢
        have hm_le : minPrice x xs ≤ x.grandTotal := minPrice_le_seed xs x
        have hpo : ¬ (o.grandTotal = minPrice x xs) := by
          intro h
          exact absurd hxo (not_lt.mpr (h ▸ hm_le))
        rw [List.find?_cons_of_neg _ (by simpa using hpo)]
        exact hfind
      · rw [if_neg hxo] at hfind ⊢
        by_cases hpo : o.grandTotal = minPrice o xs
        · rw [List.find?_cons_of_pos _ (by simpa using hpo)] at hfind ⊢
          exact hfind
        · have hm_le : minPrice o xs ≤ o.grandTotal := minPrice_le_seed xs o
          have hlt : minPrice o xs < o.grandTotal :=
            lt_of_le_of_ne hm_le (fun h => hpo h.symm)
          have hpx : ¬ (x.grandTotal = minPrice o xs) := by
            intro h
            exact absurd (lt_of_lt_of_le hlt (le_of_not_lt hxo)) (by rw [h]; exact lt_irrefl _)
          rw [List.find?_cons_of_neg _ (by simpa using hpo)] at hfind
          rw [List.find?_cons_of_neg _ (by simpa using hpo),
            List.find?_cons_of_neg _ (by simpa using hpx)]
          exact hfind
    · show pickLoop o (x :: xs) = w
      unfold pickLoop
      exact hpick

/-- `writesOf` adds over concatenated traces. -/
lemma writesOf_append (a b : List Event) :
    writesOf (a ++ b) = writesOf a ++ writesOf b := by
  simp [writesOf, List.filterMap_append]

/-- `resolvesOf` adds over concatenated traces. -/
lemma resolvesOf_append (a b : List Event) :
    resolvesOf (a ++ b) = resolvesOf a ++ resolvesOf b := by
  simp [resolvesOf, List.filterMap_append]

lemma writesOf_map_resolve (l : List Destination) :
    writesOf (l.map fun r => Event.resolve r.city) = [] := by
  induction l with
  | nil => rfl
  | cons d ds ih => simp [writesOf, List.filterMap_cons, ih]

lemma writesOf_map_sheetWrite (l : List Destination) :
    writesOf (l.map fun r => Event.sheetWrite r.id r.iataCode) =
      l.map fun r => (r.id, r.iataCode) := by
  induction l with
  | nil => rfl
  | cons d ds ih => simpa [writesOf, List.filterMap_cons] using ih

lemma resolvesOf_map_resolve (l : List Destination) :
    resolvesOf (l.map fun r => Event.resolve r.city) = l.map fun r => r.city := by
  induction l with
  | nil => rfl
  | cons d ds ih => simpa [resolvesOf, List.filterMap_cons] using ih

lemma resolvesOf_map_sheetWrite (l : List Destination) :
    resolvesOf (l.map fun r => Event.sheetWrite r.id r.iataCode) = [] := by
  induction l with
  | nil => rfl
  | cons d ds ih => simp [resolvesOf, List.filterMap_cons, ih]

/-- `sessionOpens` adds over concatenated mail traces. -/
lemma sessionOpens_append (a b : List MailEvent) :
    sessionOpens (a ++ b) = sessionOpens a + sessionOpens b := by
  simp [sessionOpens, List.filter_append]

/-- `sendTargets` adds over concatenated mail traces. -/
lemma sendTargets_append (a b : List MailEvent) :
    sendTargets (a ++ b) = sendTargets a ++ sendTargets b := by
  simp [sendTargets, List.filterMap_append]

/-- In-range `getD` at the last index is `getLast`. -/
lemma getD_length_eq_getLast (ss : List Segment) :
    ∀ s0 : Segment,
      (s0 :: ss).getD ss.length defaultSegment = (s0 :: ss).getLast (by simp) := by
  induction ss with
  | nil => intro s0; rfl
  | cons x xs ih =>
    intro s0
    rw [List.getLast_cons (by simp)]
    exact ih x

/-! ## Claim theorems -/

/-- C1: the claim says `main` reduces the raw `check_flights` offer set to
the single cheapest quote via `find_cheapest_flight` before the step-5
price comparison. The code never calls `find_cheapest_flight`: on the
end-to-end scenario (Paris, recorded lowest 60, search returns one offer
at 45), `main` evaluates `flight.price` on the raw response `dict` and
raises `AttributeError`, while the reduction — had it been applied — would
have produced the price-45 quote. -/
theorem runMain_skips_reduction_and_crashes :
    runMain envScenario = ([Event.search "LON" "PAR"], some PyError.attributeError) ∧
    (find_cheapest_flight (some resp45)).price = Val.num 45 := by
  constructor
  · rfl
  · decide

/-- C2: for every non-empty, well-formed raw offer set,
`find_cheapest_flight` returns the extraction of the earliest-listed offer
whose grand total equals the minimum price over the set (the strict
less-than running minimum never lets a later equal price replace an
earlier one). -/
theorem find_cheapest_flight_min (resp : AmadeusResponse) (o : Offer)
    (rest : List Offer) (hdata : resp.data = o :: rest)
    (hwf : ∀ x ∈ resp.data, wfOffer x) :
    ∃ w, (o :: rest).find? (fun x => decide (x.grandTotal = minPrice o rest)) = some w ∧
      find_cheapest_flight (some resp) = from_amadeus_data w ∧
      w.grandTotal = minPrice o rest ∧
      ∀ x ∈ o :: rest, w.grandTotal ≤ x.grandTotal := by
  obtain ⟨w, hfind, hpick⟩ := pickLoop_find rest o
  have hw_eq : w.grandTotal = minPrice o rest := by
    have := List.find?_some hfind
    simpa using this
  refine ⟨w, hfind, ?_, hw_eq, ?_⟩
  · cases resp with
    | mk data =>
      have hd : data = o :: rest := hdata
      subst hd
      show cheapLoop (from_amadeus_data o) (o :: rest) = from_amadeus_data w
      rw [cheapLoop_fad]
      congr 1
      show pickLoop (if o.grandTotal < o.grandTotal then o else o) rest = w
      rw [if_neg (lt_irrefl _)]
      exact hpick
  · intro x hx
    rw [hw_eq]
    rcases List.mem_cons.mp hx with h | h
    · subst h; exact minPrice_le_seed rest x
    · exact minPrice_le_mem rest o x h

/-- C2 witness: on three well-formed offers priced 10, 7, 7 the selected
offer is the earliest one priced 7. -/
theorem find_cheapest_flight_min_witness :
    (∀ x ∈ (AmadeusResponse.mk offersTie).data, wfOffer x) ∧
    ∃ w, (mkOffer 10 "AAA" :: [mkOffer 7 "BBB", mkOffer 7 "CCC"]).find?
        (fun x => decide (x.grandTotal =
          minPrice (mkOffer 10 "AAA") [mkOffer 7 "BBB", mkOffer 7 "CCC"])) = some w ∧
      find_cheapest_flight (some (AmadeusResponse.mk offersTie)) = from_amadeus_data w ∧
      w.grandTotal = minPrice (mkOffer 10 "AAA") [mkOffer 7 "BBB", mkOffer 7 "CCC"] ∧
      ∀ x ∈ mkOffer 10 "AAA" :: [mkOffer 7 "BBB", mkOffer 7 "CCC"],
        w.grandTotal ≤ x.grandTotal :=
  ⟨by decide,
   find_cheapest_flight_min (AmadeusResponse.mk offersTie) (mkOffer 10 "AAA")
     [mkOffer 7 "BBB", mkOffer 7 "CCC"] rfl (by decide)⟩

/-- C3: branch selection. With no flight found (`check_flights` returns
`None`), neither comparison branch runs and no notification event occurs;
but with an available, cheaper offer set (price 45 vs recorded 60), the
code raises `AttributeError` at `flight.price` on the raw response `dict`
instead of taking the notification path the claim describes. -/
theorem branch_selection_on_code :
    runMain envNoFlight = ([Event.search "LON" "PAR"], Option.none) ∧
    notificationEventsOf (runMain envNoFlight).1 = [] ∧
    runMain envScenarioTwoCustomers =
      ([Event.search "LON" "PAR"], some PyError.attributeError) := by
  refine ⟨rfl, rfl, rfl⟩

/-- C4: on the end-to-end scenario (destination `{id 1, Paris, PAR, 60}`,
one offer at price 45 with 0 stops, two customers on the users sheet) the
run raises `AttributeError` before fetching customers or sending any
email: no dispatch happens, instead of the one-per-customer dispatch the
claim describes. -/
theorem end_to_end_scenario_crashes :
    runMain envScenarioTwoCustomers =
      ([Event.search "LON" "PAR"], some PyError.attributeError) ∧
    notificationEventsOf (runMain envScenarioTwoCustomers).1 = [] ∧
    (find_cheapest_flight (some resp45)).price = Val.num 45 := by
  refine ⟨rfl, rfl, by decide⟩

/-- C5: the IATA backfill runs exactly when the first fetched row's
`iataCode` is the empty string; when it runs, every row previously read is
re-resolved and written back exactly once, in read order, via the update
call carrying that row's own id — including rows whose code was already
non-empty; when it does not run, no resolution or write occurs. -/
theorem backfill_writes_each_row_once (env : WorkflowEnv) (d0 : Destination)
    (rest : List Destination) (h : env.destinations = d0 :: rest) :
    writesOf (runMain env).1 =
      (if d0.iataCode = "" then (d0 :: rest).map fun r => (r.id, env.resolve r.city)
        else []) ∧
    resolvesOf (runMain env).1 =
      (if d0.iataCode = "" then (d0 :: rest).map fun r => r.city else []) := by
  have hrun : runMain env = runMainAux env.resolve env.search (d0 :: rest) := by
    unfold runMain; rw [h]
  rw [hrun]
  by_cases hc : d0.iataCode = ""
  · simp only [runMainAux, if_pos hc]
    constructor
    · rw [writesOf_append, writesOf_append, writesOf_map_resolve,
        writesOf_map_sheetWrite, writesOf_processDestinations, List.map_map]
      simp [Function.comp_def]
    · rw [resolvesOf_append, resolvesOf_append, resolvesOf_map_resolve,
        resolvesOf_map_sheetWrite, resolvesOf_processDestinations]
      simp
  · simp only [runMainAux, if_neg hc]
    exact ⟨writesOf_processDestinations env.search (d0 :: rest),
      resolvesOf_processDestinations env.search (d0 :: rest)⟩

/-- C5 witness: with rows Paris (empty code) and Berlin (already `"BER"`),
both rows are resolved and both written back once with their own ids —
Berlin's existing code is overwritten with the re-resolved `"XXX"`. -/
theorem backfill_writes_each_row_once_witness :
    writesOf (runMain envBackfill).1 = [(1, "PAR"), (2, "XXX")] ∧
    resolvesOf (runMain envBackfill).1 = ["Paris", "Berlin"] := by
  obtain ⟨h1, h2⟩ :=
    backfill_writes_each_row_once envBackfill ⟨1, "Paris", "", 60⟩
      [⟨2, "Berlin", "BER", 99⟩] rfl
  constructor
  · rw [h1]; decide
  · rw [h2]; decide

/-- C6 counterexample: a `send_emails` call with two recipients opens two
SMTP transport sessions, not exactly one for the whole call. -/
theorem send_emails_two_recipients_two_sessions :
    sessionOpens (send_emails ⟨"smtp.example.com", "me@example.com", "pw"⟩
      ["ann@example.com", "bob@example.com"] "subj" "body") = 2 ∧ (2 : Nat) ≠ 1 := by
  decide

/-- C6 amended: `send_emails` opens one SMTP transport session per
recipient (n sessions for n recipients), and within them sends one
individually addressed message to each recipient in list order. -/
theorem send_emails_one_session_per_recipient (svc : EmailService)
    (email_list : List String) (subject body : String) :
    sessionOpens (send_emails svc email_list subject body) = email_list.length ∧
    sendTargets (send_emails svc email_list subject body) = email_list := by
  induction email_list with
  | nil => exact ⟨rfl, rfl⟩
  | cons e es ih =>
    have hone : sessionOpens (send_email svc e subject body) = 1 := rfl
    have htgt : sendTargets (send_email svc e subject body) = [e] := rfl
    constructor
    · show sessionOpens
        (send_email svc e subject body ++ send_emails svc es subject body) = es.length + 1
      rw [sessionOpens_append, hone, ih.1, Nat.add_comm]
    · show sendTargets
        (send_email svc e subject body ++ send_emails svc es subject body) = e :: es
      rw [sendTargets_append, htgt, ih.2]
      rfl

/-- C7: the soft-fail contract. A transport/HTTP failure
(`RequestException`) makes `check_flights` return `None` and
`get_destination_code` return `"N/A"`, and any failure inside the email,
SMS and WhatsApp send operations is caught so the call returns normally —
none of them propagates the exception. -/
theorem soft_fail_contract :
    ∀ f : SendFailure,
      check_flights Transport.requestException = Except.ok Option.none ∧
      get_destination_code Transport.requestException = Except.ok "N/A" ∧
      send_email_outcome (some f) = Except.ok () ∧
      send_sms_outcome (some f) = Except.ok () ∧
      send_whatsapp_outcome (some f) = Except.ok () := by
  intro f
  cases f <;> exact ⟨rfl, rfl, rfl, rfl, rfl⟩

/-- C8 counterexample: on input `None`, the sentinel quote's fields are
the string `"N/A"`, not absent/null — its price field is `"N/A"` and is
not the null value. -/
theorem sentinel_fields_are_na_strings :
    (find_cheapest_flight Option.none).price = Val.str "N/A" ∧
    (find_cheapest_flight Option.none).price ≠ Val.null ∧
    (find_cheapest_flight Option.none).origin_airport ≠ Val.null := by
  refine ⟨rfl, ?_, ?_⟩ <;> decide

/-- C8 amended: for input `None` or a response with no offers under the
`"data"` key, `find_cheapest_flight` returns the sentinel quote whose six
fields all hold the string `"N/A"`, hence it carries no numeric price. -/
theorem find_cheapest_flight_sentinel (d : Option AmadeusResponse)
    (h : ∀ r, d = some r → r.data = []) :
    find_cheapest_flight d = naFlightData ∧
    ∀ q : ℚ, (find_cheapest_flight d).price ≠ Val.num q := by
  have hd : find_cheapest_flight d = naFlightData := by
    cases d with
    | none => rfl
    | some r =>
      cases r with
      | mk data =>
        have hr : data = [] := h ⟨data⟩ rfl
        subst hr
        rfl
  refine ⟨hd, ?_⟩
  intro q hq
  rw [hd] at hq
  exact Val.noConfusion hq

/-- C8 witness: a response whose `"data"` list is empty yields the all-
`"N/A"` sentinel. -/
theorem find_cheapest_flight_sentinel_witness :
    find_cheapest_flight (some ⟨[]⟩) = naFlightData ∧
    ∀ q : ℚ, (find_cheapest_flight (some ⟨[]⟩)).price ≠ Val.num q :=
  find_cheapest_flight_sentinel (some ⟨[]⟩)
    (fun _ hr => (Option.some.inj hr) ▸ rfl)

/-- C9: field extraction. For an offer whose outbound itinerary has the
segments `s0 :: ss` (so N ≥ 1) and whose return itinerary starts with
segment `r0`, the extracted quote has stopCount = N − 1, origin = first
outbound departure IATA, destination = arrival IATA of the last outbound
segment (which sits at index stopCount), out/return dates = the date
portions of the respective first segments' departure timestamps, and
price = the grand total. -/
theorem from_amadeus_data_fields (q : ℚ) (outIt retIt : Itinerary)
    (restIts : List Itinerary) (s0 : Segment) (ss : List Segment)
    (r0 : Segment) (rs : List Segment)
    (hout : outIt.segments = s0 :: ss) (hret : retIt.segments = r0 :: rs) :
    from_amadeus_data ⟨outIt :: retIt :: restIts, q⟩ =
      { price := Val.num q
        origin_airport := Val.str s0.departure_iataCode
        destination_airport :=
          Val.str (((s0 :: ss).getLast (by simp)).arrival_iataCode)
        out_date := Val.str (dateOf s0.departure_at)
        return_date := Val.str (dateOf r0.departure_at)
        stops := Val.int (((s0 :: ss).length - 1 : Nat) : Int) } := by
  unfold from_amadeus_data
  simp only [List.getD_cons_zero, List.getD_cons_succ, hout, hret,
    List.length_cons, Nat.add_sub_cancel]
  rw [getD_length_eq_getLast]

/-- C9 witness: a two-segment outbound itinerary (LON→AMS→PAR) yields one
stop, origin LON, destination PAR (the last segment's arrival), and the
date portions of the departure timestamps. -/
theorem from_amadeus_data_fields_witness :
    from_amadeus_data offerTwoSeg =
      { price := Val.num 55
        origin_airport := Val.str "LON"
        destination_airport := Val.str "PAR"
        out_date := Val.str "2025-03-01"
        return_date := Val.str "2025-03-08"
        stops := Val.int 1 } := by
  have h := from_amadeus_data_fields 55
    ⟨[⟨"LON", "2025-03-01T10:00:00", "AMS"⟩, ⟨"AMS", "2025-03-01T14:00:00", "PAR"⟩]⟩
    ⟨[⟨"PAR", "2025-03-08T12:00:00", "LON"⟩]⟩ []
    ⟨"LON", "2025-03-01T10:00:00", "AMS"⟩ [⟨"AMS", "2025-03-01T14:00:00", "PAR"⟩]
    ⟨"PAR", "2025-03-08T12:00:00", "LON"⟩ [] rfl rfl
  rw [show offerTwoSeg =
    (⟨[⟨[⟨"LON", "2025-03-01T10:00:00", "AMS"⟩, ⟨"AMS", "2025-03-01T14:00:00", "PAR"⟩]⟩,
       ⟨[⟨"PAR", "2025-03-08T12:00:00", "LON"⟩]⟩], 55⟩ : Offer) from rfl, h]
  decide

/-- C10: an empty destination list makes the workflow fail with an
uncaught `IndexError` at the backfill-trigger check, before any IATA
resolution, flight search, or notification event. -/
theorem runMain_empty_sheet_indexError (env : WorkflowEnv)
    (h : env.destinations = []) :
    runMain env = ([], some PyError.indexError) := by
  unfold runMain
  rw [h]
  rfl

/-- C10 witness: the concrete empty-sheet environment raises `IndexError`
with an empty event trace. -/
theorem runMain_empty_sheet_indexError_witness :
    runMain envEmptySheet = ([], some PyError.indexError) :=
  runMain_empty_sheet_indexError envEmptySheet rfl
